import Mathlib

/-!
Shallow embedding of `src/exec/run-batch-submitter.ts` (MetisProtocol
batch-submitter): the `run` entry point, its required-environment-variable
validation, the per-role `loop` function (which first optionally clears
pending transactions by broadcasting zero-value self-transfers, then runs
the infinite submit-sleep loop), and the launch of the two role loops.

The external collaborators (signer, providers, the two batch submitters,
and `BatchSubmitter.getReceiptWithResubmission`) are not under `src/`;
their outcomes are supplied by oracles, and each `loop` invocation is
modelled as the finite trace of observable events it produces for a given
oracle and a finite prefix of submit-iteration outcomes.
-/

namespace BatchSubmitterRun

/-- Observable events of one `loop` invocation, in program order.
`readCounts p l` is the pair of `getTransactionCount('pending')` /
`getTransactionCount('latest')` reads (lines 168-169 of the source);
`sendSelfTransfer i` is `sendTransaction ({to: own address, value: 0, nonce: i})`
(lines 173-177); `awaitReceipt i t` is the call to
`BatchSubmitter.getReceiptWithResubmission` for the transaction at nonce `i`
with resubmission timeout `t` milliseconds (lines 179-186); `exitProcess c`
is `process.exit(c)` (line 191); `submitCall` is one `await func()` attempt
(line 197); `submitError` is the catch-and-log of an error thrown by `func`
(lines 198-201); `sleep ms` is the `setTimeout` sleep (lines 203-205). -/
inductive Event where
  | readCounts (pending latest : Nat)
  | sendSelfTransfer (nonce : Nat)
  | awaitReceipt (nonce timeoutMs : Nat)
  | exitProcess (code : Nat)
  | submitCall
  | submitError
  | sleep (ms : Nat)
deriving DecidableEq, Repr

/-- Outcome of the broadcast-and-await pair for one nonce during clearing:
both succeed, the `sendTransaction` throws, or the
`getReceiptWithResubmission` wait throws. -/
inductive NonceOutcome where
  | ok
  | sendFail
  | awaitFail
deriving DecidableEq, Repr

/-- Oracle for the external signer as observed by one `loop` invocation:
whether the two `getTransactionCount` reads succeed, the counts they
return, and the outcome of the broadcast-and-await pair at each nonce. -/
structure SignerOracle where
  readsOk : Bool
  pending : Nat
  latest : Nat
  clearRes : Nat → NonceOutcome

/-- The clearing loop resubmission timeout: `60 * 1_000` ms (source line 184). -/
def resubmitEvery60s : Nat := 60 * 1000

/-- The `for (let i = latestTxs; i < pendingTxs; i++)` clearing loop
(source lines 172-187), as the trace it emits and whether it completed
without a thrown error.  `fuel` is `pendingTxs - i`. -/
def clearLoop (res : Nat → NonceOutcome) (i : Nat) : Nat → List Event × Bool
  | 0 => ([], true)
  | fuel + 1 =>
    match res i with
    | .ok =>
      let r := clearLoop res (i + 1) fuel
      (.sendSelfTransfer i :: .awaitReceipt i resubmitEvery60s :: r.1, r.2)
    | .sendFail => ([.exitProcess 1], false)
    | .awaitFail => ([.sendSelfTransfer i, .exitProcess 1], false)

/-- The whole `try { ... } catch (err) { ...; process.exit(1) }` clearing
block (source lines 167-192): read the two counts, and when
`pendingTxs > latestTxs` run the clearing loop; any thrown error reaches
the catch, which calls `process.exit(1)`. Returns the emitted trace and
whether the block completed without exiting. -/
def clearTrace (o : SignerOracle) : List Event × Bool :=
  if o.readsOk then
    if o.pending > o.latest then
      let r := clearLoop o.clearRes o.latest (o.pending - o.latest)
      (.readCounts o.pending o.latest :: r.1, r.2)
    else ([.readCounts o.pending o.latest], true)
  else ([.exitProcess 1], false)

/-- The `while (true)` submit loop (source lines 195-206), run for a finite
prefix of iteration outcomes (`true` = `func()` resolved, `false` = it
threw).  Each iteration calls `func`, on failure logs the error, and in
either case sleeps `pollMs` before the next iteration. -/
def submitLoopTrace (pollMs : Nat) : List Bool → List Event
  | [] => []
  | ok :: rest =>
    .submitCall :: (if ok then [] else [.submitError]) ++
      .sleep pollMs :: submitLoopTrace pollMs rest

/-- One invocation of `loop` (source lines 162-207): the clearing block
runs first when `clearPendingTxs` is true, and the submit loop runs only
if the clearing block did not exit the process. -/
def loopTrace (clearPendingTxs : Bool) (o : SignerOracle) (pollMs : Nat)
    (outcomes : List Bool) : List Event :=
  if clearPendingTxs then
    let r := clearTrace o
    if r.2 then r.1 ++ submitLoopTrace pollMs outcomes else r.1
  else submitLoopTrace pollMs outcomes

/-- The keys of `requiredEnvVars` (source lines 59-75), in insertion order. -/
def requiredEnvVarNames : List String :=
  ["L1_NODE_WEB3_URL", "L2_NODE_WEB3_URL", "MIN_TX_SIZE", "MAX_TX_SIZE",
   "MAX_BATCH_SIZE", "MAX_BATCH_SUBMISSION_TIME", "POLL_INTERVAL",
   "NUM_CONFIRMATIONS", "RESUBMISSION_TIMEOUT", "FINALITY_CONFIRMATIONS",
   "RUN_TX_BATCH_SUBMITTER", "RUN_STATE_BATCH_SUBMITTER",
   "SAFE_MINIMUM_ETHER_BALANCE", "CLEAR_PENDING_TXS",
   "ADDRESS_MANAGER_ADDRESS"]

/-- JavaScript truthiness of `process.env[name]`: `undefined` and the
empty string are falsy, every other string is truthy. -/
def envTruthy : Option String → Bool
  | none => false
  | some s => !(s == "")

/-- The validation loop (source lines 94-100) exits on the first required
variable whose value is falsy; this returns that variable, if any. -/
def firstMissing (env : String → Option String) : Option String :=
  requiredEnvVarNames.find? (fun name => !envTruthy (env name))

/-- `parseInt(s, 10)` as used on the already-validated decimal environment
values (the source only ever feeds it canonical base-10 numerals): the
usual left fold over the decimal digits. -/
def parseIntBase10 (s : String) : Nat :=
  s.data.foldl (fun n c => n * 10 + (c.toNat - 48)) 0

/-- The value of `requiredEnvVars[name]` after validation overwrote it with
`process.env[name]` (source line 99). -/
def getEnvVal (env : String → Option String) (name : String) : String :=
  (env name).getD ""

/-- The numeric constructor arguments common to the two batch submitters
(source lines 126-158): note the `* 1_000` on `MAX_BATCH_SUBMISSION_TIME`
and `RESUBMISSION_TIMEOUT` (lines 132, 134, 149, 151). -/
structure BuiltSubmitters where
  minTxSize : Nat
  maxTxSize : Nat
  maxBatchSize : Nat
  maxBatchSubmissionTimeMs : Nat
  numConfirmations : Nat
  resubmissionTimeoutMs : Nat
  finalityConfirmations : Nat
deriving DecidableEq, Repr

/-- The submitter construction performed by `run` (source lines 126-158). -/
def builtOf (env : String → Option String) : BuiltSubmitters :=
  { minTxSize := parseIntBase10 (getEnvVal env "MIN_TX_SIZE")
    maxTxSize := parseIntBase10 (getEnvVal env "MAX_TX_SIZE")
    maxBatchSize := parseIntBase10 (getEnvVal env "MAX_BATCH_SIZE")
    maxBatchSubmissionTimeMs :=
      parseIntBase10 (getEnvVal env "MAX_BATCH_SUBMISSION_TIME") * 1000
    numConfirmations := parseIntBase10 (getEnvVal env "NUM_CONFIRMATIONS")
    resubmissionTimeoutMs :=
      parseIntBase10 (getEnvVal env "RESUBMISSION_TIMEOUT") * 1000
    finalityConfirmations :=
      parseIntBase10 (getEnvVal env "FINALITY_CONFIRMATIONS") }

/-- The sleep duration used by the submit loop:
`parseInt(requiredEnvVars.POLL_INTERVAL, 10)` with no unit conversion
(source line 204). -/
def pollIntervalOf (env : String → Option String) : Nat :=
  parseIntBase10 (getEnvVal env "POLL_INTERVAL")

/-- Result of `run`: `exited c` models `exit(c)` during validation
(source line 97); `threw` models the `throw new Error('Must pass one of
SEQUENCER_PRIVATE_KEY or MNEMONIC')` (source line 120); `launched` carries
the constructed submitter parameters and, per role, `some trace` when that
role's `loop` was invoked (source lines 210-215) and `none` when it was
not. -/
inductive RunResult where
  | exited (code : Nat)
  | threw
  | launched (built : BuiltSubmitters) (txLoop stateLoop : Option (List Event))
deriving DecidableEq, Repr

/-- The `run` entry point (source lines 91-216).  `txO`/`stateO` are the
signer oracles observed by the tx-batch and state-batch `loop` invocations
respectively, and `txOut`/`stateOut` the finite prefixes of their
submit-iteration outcomes. -/
def run (env : String → Option String) (txO stateO : SignerOracle)
    (txOut stateOut : List Bool) : RunResult :=
  match firstMissing env with
  | some _ => .exited 1
  | none =>
    let clearPendingTxs := getEnvVal env "CLEAR_PENDING_TXS" == "true"
    if envTruthy (env "SEQUENCER_PRIVATE_KEY") || envTruthy (env "MNEMONIC") then
      .launched (builtOf env)
        (if getEnvVal env "RUN_TX_BATCH_SUBMITTER" == "true" then
          some (loopTrace clearPendingTxs txO (pollIntervalOf env) txOut)
        else none)
        (if getEnvVal env "RUN_STATE_BATCH_SUBMITTER" == "true" then
          some (loopTrace clearPendingTxs stateO (pollIntervalOf env) stateOut)
        else none)
    else .threw

/-- The tx-batch role's loop trace, when that loop was invoked. -/
def txLoopOf : RunResult → Option (List Event)
  | .launched _ t _ => t
  | _ => none

/-- The state-batch role's loop trace, when that loop was invoked. -/
def stateLoopOf : RunResult → Option (List Event)
  | .launched _ _ t => t
  | _ => none

/-- Predicate: the event is a `submitNextBatch` call. -/
def isSubmitCall : Event → Bool
  | .submitCall => true
  | _ => false

/-- Predicate: the event is the catch-and-log of a submit error. -/
def isSubmitError : Event → Bool
  | .submitError => true
  | _ => false

/-- Predicate: the event is a `process.exit`. -/
def isExit : Event → Bool
  | .exitProcess _ => true
  | _ => false

/-- Predicate: the event is a poll-interval sleep. -/
def isSleepEvent : Event → Bool
  | .sleep _ => true
  | _ => false

/-- Predicate: the event is the pending/latest transaction-count read pair. -/
def isReadCounts : Event → Bool
  | .readCounts _ _ => true
  | _ => false

/-- Predicate: the event belongs to the clearing (reconciliation) block:
a count read, a self-transfer broadcast, or a confirmation wait. -/
def isReconEvent : Event → Bool
  | .readCounts _ _ => true
  | .sendSelfTransfer _ => true
  | .awaitReceipt _ _ => true
  | _ => false

/-- Number of pending/latest count-read pairs in a trace: each execution
of the clearing block performs exactly one. -/
def countReads (t : List Event) : Nat := t.countP isReadCounts

/-- The nonce of a self-transfer broadcast event, if it is one. -/
def sendNonce : Event → Option Nat
  | .sendSelfTransfer i => some i
  | _ => none

/-- The alternating broadcast/await block for a list of nonces: each
self-transfer is immediately followed by its confirmation wait with the
fixed 60-second resubmission timeout, before the next nonce's
self-transfer. -/
def clearBlocks (nonces : List Nat) : List Event :=
  nonces.foldr
    (fun j acc => .sendSelfTransfer j :: .awaitReceipt j resubmitEvery60s :: acc) []

/-- `Sched t1 t2 L`: `L` is an event sequence the single-threaded runtime
can realize by interleaving the two fire-and-forget `loop` invocations
(source lines 210-215), each of which suspends at every `await`; the
schedule may stop at any point (in particular when `process.exit` fires). -/
inductive Sched : List Event → List Event → List Event → Prop where
  | stop {xs ys} : Sched xs ys []
  | left {x xs ys zs} : Sched xs ys zs → Sched (x :: xs) ys (x :: zs)
  | right {y xs ys zs} : Sched xs ys zs → Sched xs (y :: ys) (y :: zs)

/-- `t` decomposes into a reconciliation phase (no submit-loop events)
followed by a submit-loop phase (no reconciliation events). -/
def ReconFirst (t : List Event) : Prop :=
  ∃ pre post, t = pre ++ post ∧
    (∀ e ∈ pre, isSubmitCall e = false) ∧
    (∀ e ∈ post, isReconEvent e = false)

/-- The chain-side nonce counters of the signer, as the spec's NonceWindow:
`pendingCount` includes broadcast-but-unmined transactions, `latestCount`
only mined ones. -/
structure ChainState where
  latestCount : Nat
  pendingCount : Nat
deriving DecidableEq, Repr

/-- Modelled from the spec: the chain-side effect of the reconciliation
events.  The Confirmation Waiter (`BatchSubmitter.getReceiptWithResubmission`,
not under `src/`) guarantees that an awaited transaction is durably
confirmed, so after `awaitReceipt i _` every nonce up to `i` is mined and
the latest count is `i + 1`; a broadcast at nonce `i` makes the pending
count at least `i + 1`; no other event touches the counters. -/
def applyEvent (s : ChainState) : Event → ChainState
  | .sendSelfTransfer i =>
    { s with pendingCount := max s.pendingCount (i + 1) }
  | .awaitReceipt i _ =>
    { latestCount := i + 1, pendingCount := max s.pendingCount (i + 1) }
  | _ => s

/-- The chain state after a trace of reconciliation events. -/
def runEvents (s : ChainState) (t : List Event) : ChainState :=
  t.foldl applyEvent s

/-- Exit status of the whole process, as a function of the run result.
Modelled from the spec for the `threw` case: the executable entry point
that invokes `run()` is not under `src/`; per the spec, a signer
construction failure is a fatal startup error terminating the process
with non-zero status.  `exited c` is the validation `exit(1)`; a
`launched` process runs forever unless the clearing block called
`process.exit(1)`, the only exit call in the loops. -/
def exitStatus : RunResult → Option Nat
  | .exited c => some c
  | .threw => some 1
  | .launched _ t1 t2 =>
    if (t1.getD []).countP isExit = 0 ∧ (t2.getD []).countP isExit = 0 then none
    else some 1

/-! ### Lemmas about the submit loop -/

theorem submitLoop_count_exit (pollMs : Nat) (outs : List Bool) :
    (submitLoopTrace pollMs outs).countP isExit = 0 := by
  induction outs with
  | nil => rfl
  | cons ok rest ih =>
    cases ok <;>
      simp [submitLoopTrace, List.countP_cons, List.countP_append, isExit, ih]

theorem submitLoop_count_submitCall (pollMs : Nat) (outs : List Bool) :
    (submitLoopTrace pollMs outs).countP isSubmitCall = outs.length := by
  induction outs with
  | nil => rfl
  | cons ok rest ih =>
    cases ok <;>
      simp [submitLoopTrace, List.countP_cons, List.countP_append, isSubmitCall, ih]

theorem submitLoop_count_sleep (pollMs : Nat) (outs : List Bool) :
    (submitLoopTrace pollMs outs).countP isSleepEvent = outs.length := by
  induction outs with
  | nil => rfl
  | cons ok rest ih =>
    cases ok <;>
      simp [submitLoopTrace, List.countP_cons, List.countP_append, isSleepEvent, ih]

theorem submitLoop_count_sleep_poll (pollMs : Nat) (outs : List Bool) :
    (submitLoopTrace pollMs outs).countP (fun e => decide (e = .sleep pollMs)) =
      outs.length := by
  induction outs with
  | nil => rfl
  | cons ok rest ih =>
    cases ok <;>
      simp [submitLoopTrace, List.countP_cons, List.countP_append, ih]

theorem submitLoop_count_submitError (pollMs : Nat) (outs : List Bool) :
    (submitLoopTrace pollMs outs).countP isSubmitError =
      outs.countP (fun b => !b) := by
  induction outs with
  | nil => rfl
  | cons ok rest ih =>
    cases ok <;>
      simp [submitLoopTrace, List.countP_cons, List.countP_append, isSubmitError, ih]

theorem submitLoop_count_recon (pollMs : Nat) (outs : List Bool) :
    (submitLoopTrace pollMs outs).countP isReconEvent = 0 := by
  induction outs with
  | nil => rfl
  | cons ok rest ih =>
    cases ok <;>
      simp [submitLoopTrace, List.countP_cons, List.countP_append, isReconEvent, ih]

theorem submitLoop_no_recon (pollMs : Nat) (outs : List Bool) :
    ∀ e ∈ submitLoopTrace pollMs outs, isReconEvent e = false := by
  intro e he
  have h0 := submitLoop_count_recon pollMs outs
  rw [List.countP_eq_zero] at h0
  simpa using h0 e he

/-! ### Lemmas about the clearing block -/

theorem clearLoop_ok (res : Nat → NonceOutcome) (h : ∀ j, res j = .ok) :
    ∀ fuel i, clearLoop res i fuel = (clearBlocks (List.range' i fuel), true) := by
  intro fuel
  induction fuel with
  | zero => intro i; rfl
  | succ fuel ih =>
    intro i
    simp [clearLoop, h i, ih (i + 1), List.range'_succ, clearBlocks]

theorem clearBlocks_sends (nonces : List Nat) :
    (clearBlocks nonces).filterMap sendNonce = nonces := by
  induction nonces with
  | nil => rfl
  | cons j rest ih => simp [clearBlocks, sendNonce] at ih ⊢; exact ih

theorem clearLoop_no_submit (res : Nat → NonceOutcome) :
    ∀ fuel i e, e ∈ (clearLoop res i fuel).1 → isSubmitCall e = false := by
  intro fuel
  induction fuel with
  | zero => intro i e he; cases he
  | succ fuel ih =>
    intro i e he
    cases h : res i <;> simp [clearLoop, h] at he
    · rcases he with h1 | h1 | h1
      · subst h1; rfl
      · subst h1; rfl
      · exact ih (i + 1) e h1
    · subst he; rfl
    · rcases he with h1 | h1 <;> (subst h1; rfl)

theorem clearLoop_count_reads (res : Nat → NonceOutcome) :
    ∀ fuel i, countReads (clearLoop res i fuel).1 = 0 := by
  intro fuel
  induction fuel with
  | zero => intro i; rfl
  | succ fuel ih =>
    intro i
    cases h : res i <;>
      simp [clearLoop, h, countReads, List.countP_cons, isReadCounts] <;>
      simpa [countReads] using ih (i + 1)

theorem clearLoop_exit_count (res : Nat → NonceOutcome) :
    ∀ fuel i, (clearLoop res i fuel).1.countP isExit =
      (if (clearLoop res i fuel).2 then 0 else 1) := by
  intro fuel
  induction fuel with
  | zero => intro i; rfl
  | succ fuel ih =>
    intro i
    cases h : res i <;>
      simp [clearLoop, h, List.countP_cons, isExit, ih (i + 1)]

theorem clearTrace_no_submit (o : SignerOracle) :
    ∀ e ∈ (clearTrace o).1, isSubmitCall e = false := by
  intro e he
  unfold clearTrace at he
  by_cases hr : o.readsOk = true
  · simp [hr] at he
    by_cases hp : o.pending > o.latest
    · simp [hp] at he
      rcases he with h | h
      · subst h; rfl
      · exact clearLoop_no_submit o.clearRes _ o.latest e h
    · simp [hp] at he; subst he; rfl
  · simp [Bool.not_eq_true] at hr
    simp [hr] at he; subst he; rfl

theorem clearTrace_count_reads (o : SignerOracle) (h : o.readsOk = true) :
    countReads (clearTrace o).1 = 1 := by
  unfold clearTrace
  by_cases hp : o.pending > o.latest <;>
    simp [h, hp, countReads, List.countP_cons, isReadCounts] <;>
    simpa [countReads] using clearLoop_count_reads o.clearRes (o.pending - o.latest) o.latest

theorem clearTrace_exit_count (o : SignerOracle) :
    (clearTrace o).1.countP isExit = (if (clearTrace o).2 then 0 else 1) := by
  unfold clearTrace
  by_cases hr : o.readsOk = true
  · by_cases hp : o.pending > o.latest <;>
      simp [hr, hp, List.countP_cons, isExit, clearLoop_exit_count o.clearRes]
  · simp [Bool.not_eq_true] at hr
    simp [hr, List.countP_cons, isExit]

/-! ### Lemmas about one loop invocation -/

theorem loopTrace_reconFirst (o : SignerOracle) (pollMs : Nat)
    (outs : List Bool) : ReconFirst (loopTrace true o pollMs outs) := by
  unfold loopTrace
  by_cases hc : (clearTrace o).2 = true
  · refine ⟨(clearTrace o).1, submitLoopTrace pollMs outs, by simp [hc], ?_, ?_⟩
    · exact clearTrace_no_submit o
    · exact submitLoop_no_recon pollMs outs
  · simp [Bool.not_eq_true] at hc
    refine ⟨(clearTrace o).1, [], by simp [hc], ?_, ?_⟩
    · exact clearTrace_no_submit o
    · intro e he; cases he

theorem submitLoop_count_readCounts (pollMs : Nat) (outs : List Bool) :
    (submitLoopTrace pollMs outs).countP isReadCounts = 0 := by
  induction outs with
  | nil => rfl
  | cons ok rest ih =>
    cases ok <;>
      simp [submitLoopTrace, List.countP_cons, List.countP_append, isReadCounts, ih]

theorem loopTrace_count_reads (o : SignerOracle) (pollMs : Nat)
    (outs : List Bool) (h : o.readsOk = true) :
    countReads (loopTrace true o pollMs outs) = 1 := by
  unfold loopTrace
  by_cases hc : (clearTrace o).2 = true
  · simp only [hc, if_true, countReads, List.countP_append]
    have h1 := clearTrace_count_reads o h
    have h2 := submitLoop_count_readCounts pollMs outs
    simp only [countReads] at h1
    omega
  · simp [Bool.not_eq_true] at hc
    simp only [hc, Bool.false_eq_true, if_false]
    exact clearTrace_count_reads o h

/-! ### Lemmas about schedules -/

theorem sched_countP (p : Event → Bool) {t1 t2 L : List Event}
    (h : Sched t1 t2 L) : L.countP p ≤ t1.countP p + t2.countP p := by
  induction h with
  | stop => simp
  | left _ ih => simp [List.countP_cons]; omega
  | right _ ih => simp [List.countP_cons]; omega

/-! ### Lemmas about the chain state -/

theorem runEvents_clearBlocks_cons (s : ChainState) (j : Nat) (rest : List Nat) :
    runEvents s (clearBlocks (j :: rest)) =
      runEvents
        (applyEvent (applyEvent s (.sendSelfTransfer j))
          (.awaitReceipt j resubmitEvery60s))
        (clearBlocks rest) := rfl

theorem runEvents_clearBlocks :
    ∀ (fuel i : Nat) (s : ChainState), i + fuel + 1 ≤ s.pendingCount →
      runEvents s (clearBlocks (List.range' i (fuel + 1))) =
        { latestCount := i + fuel + 1, pendingCount := s.pendingCount } := by
  intro fuel
  induction fuel with
  | zero =>
    intro i s h
    simp only [List.range'_one, clearBlocks, List.foldr, runEvents, List.foldl,
      applyEvent]
    congr 1 <;> omega
  | succ fuel ih =>
    intro i s h
    rw [List.range'_succ, runEvents_clearBlocks_cons]
    have hstep :
        applyEvent (applyEvent s (.sendSelfTransfer i))
          (.awaitReceipt i resubmitEvery60s) =
        { latestCount := i + 1, pendingCount := s.pendingCount } := by
      simp only [applyEvent, ChainState.mk.injEq, true_and, and_true]
      omega
    rw [hstep]
    have h2 := ih (i + 1) { latestCount := i + 1, pendingCount := s.pendingCount }
      (by simp; omega)
    rw [h2]
    simp only [ChainState.mk.injEq, true_and, and_true]
    omega

/-- The clearing trace when the count reads succeed and every
broadcast-and-await pair succeeds: one count read followed by the
alternating broadcast/await blocks for the nonces `[latest, pending)` in
ascending order (an empty block list when `pending <= latest`). -/
theorem clearTrace_ok (o : SignerOracle) (h : o.readsOk = true)
    (hok : ∀ j, o.clearRes j = .ok) :
    clearTrace o =
      (.readCounts o.pending o.latest ::
        clearBlocks (List.range' o.latest (o.pending - o.latest)), true) := by
  unfold clearTrace
  by_cases hp : o.pending > o.latest
  · simp [h, hp, clearLoop_ok o.clearRes hok]
  · have h0 : o.pending - o.latest = 0 := by omega
    simp [h, hp, h0, clearBlocks]

/-! ### Reduction lemmas for `run` -/

theorem run_launched (env : String → Option String) (txO stateO : SignerOracle)
    (txOut stateOut : List Bool)
    (hval : firstMissing env = none)
    (hsig : (envTruthy (env "SEQUENCER_PRIVATE_KEY") ||
      envTruthy (env "MNEMONIC")) = true) :
    run env txO stateO txOut stateOut =
      .launched (builtOf env)
        (if getEnvVal env "RUN_TX_BATCH_SUBMITTER" == "true" then
          some (loopTrace (getEnvVal env "CLEAR_PENDING_TXS" == "true") txO
            (pollIntervalOf env) txOut)
        else none)
        (if getEnvVal env "RUN_STATE_BATCH_SUBMITTER" == "true" then
          some (loopTrace (getEnvVal env "CLEAR_PENDING_TXS" == "true") stateO
            (pollIntervalOf env) stateOut)
        else none) := by
  unfold run
  rw [hval]
  simp [hsig]

theorem run_missing (env : String → Option String) (txO stateO : SignerOracle)
    (txOut stateOut : List Bool) (name : String)
    (hname : name ∈ requiredEnvVarNames) (hmiss : envTruthy (env name) = false) :
    run env txO stateO txOut stateOut = .exited 1 := by
  have hne : firstMissing env ≠ none := by
    unfold firstMissing
    intro hn
    rw [List.find?_eq_none] at hn
    have := hn name hname
    simp [hmiss] at this
  cases h : firstMissing env with
  | none => exact absurd h hne
  | some v => unfold run; rw [h]

theorem run_threw (env : String → Option String) (txO stateO : SignerOracle)
    (txOut stateOut : List Bool)
    (hval : firstMissing env = none)
    (h1 : envTruthy (env "SEQUENCER_PRIVATE_KEY") = false)
    (h2 : envTruthy (env "MNEMONIC") = false) :
    run env txO stateO txOut stateOut = .threw := by
  unfold run
  rw [hval]
  simp [h1, h2]

/-! ### Concrete environments and oracles for witnesses and counterexamples -/

/-- A fully-populated environment: every required variable set to a
truthy value, both role flags and the clear-pending flag set to the exact
string true, and a sequencer private key supplied. -/
def baseEnvList : List (String × String) :=
  [("L1_NODE_WEB3_URL", "http://l1:8545"), ("L2_NODE_WEB3_URL", "http://l2:8545"),
   ("MIN_TX_SIZE", "0"), ("MAX_TX_SIZE", "60000"), ("MAX_BATCH_SIZE", "100"),
   ("MAX_BATCH_SUBMISSION_TIME", "600"), ("POLL_INTERVAL", "15000"),
   ("NUM_CONFIRMATIONS", "1"), ("RESUBMISSION_TIMEOUT", "600"),
   ("FINALITY_CONFIRMATIONS", "0"), ("RUN_TX_BATCH_SUBMITTER", "true"),
   ("RUN_STATE_BATCH_SUBMITTER", "true"), ("SAFE_MINIMUM_ETHER_BALANCE", "1"),
   ("CLEAR_PENDING_TXS", "true"), ("ADDRESS_MANAGER_ADDRESS", "0xmgr"),
   ("SEQUENCER_PRIVATE_KEY", "0xkey")]

/-- The environment-lookup function for `baseEnvList`. -/
def baseEnv : String → Option String := fun s => baseEnvList.lookup s

/-- `baseEnv` with some variables overridden. -/
def envWith (overrides : List (String × String)) : String → Option String :=
  fun s =>
    match overrides.lookup s with
    | some v => some v
    | none => baseEnv s

/-- `baseEnv` with one variable removed (unset). -/
def envDrop (name : String) : String → Option String :=
  fun s => if s == name then none else baseEnv s

/-- An oracle whose reads succeed with no nonce gap and whose clearing
steps all succeed. -/
def oracleNoGap : SignerOracle :=
  { readsOk := true, pending := 0, latest := 0, clearRes := fun _ => .ok }

/-- An oracle whose reads succeed, with the one-nonce gap
pending = 1, latest = 0, and all clearing steps succeeding. -/
def oracleGapOne : SignerOracle :=
  { readsOk := true, pending := 1, latest := 0, clearRes := fun _ => .ok }

/-- An oracle whose transaction-count reads throw. -/
def oracleReadsFail : SignerOracle :=
  { readsOk := false, pending := 0, latest := 0, clearRes := fun _ => .ok }

/-- The spec's example oracle: pending = 8, latest = 5, all clearing
steps succeeding. -/
def oracleGap5to8 : SignerOracle :=
  { readsOk := true, pending := 8, latest := 5, clearRes := fun _ => .ok }

/-! ### Further helper lemmas -/

theorem clearLoop_count_sleep (res : Nat → NonceOutcome) :
    ∀ fuel i, (clearLoop res i fuel).1.countP isSleepEvent = 0 := by
  intro fuel
  induction fuel with
  | zero => intro i; rfl
  | succ fuel ih =>
    intro i
    cases h : res i <;>
      simp [clearLoop, h, List.countP_cons, isSleepEvent, ih (i + 1)]

theorem clearTrace_count_sleep (o : SignerOracle) :
    (clearTrace o).1.countP isSleepEvent = 0 := by
  unfold clearTrace
  by_cases hr : o.readsOk = true
  · by_cases hp : o.pending > o.latest <;>
      simp [hr, hp, List.countP_cons, isSleepEvent, clearLoop_count_sleep o.clearRes]
  · simp [Bool.not_eq_true] at hr
    simp [hr, List.countP_cons, isSleepEvent]

theorem loopTrace_sleep_counts (c : Bool) (o : SignerOracle) (pollMs : Nat)
    (outs : List Bool) :
    (loopTrace c o pollMs outs).countP isSleepEvent =
      (loopTrace c o pollMs outs).countP (fun e => decide (e = .sleep pollMs)) := by
  have hmono : ∀ t : List Event,
      t.countP (fun e => decide (e = .sleep pollMs)) ≤ t.countP isSleepEvent := by
    intro t
    refine List.countP_mono_left ?_
    intro e _ he
    simp at he
    subst he
    rfl
  have hclear2 : (clearTrace o).1.countP (fun e => decide (e = .sleep pollMs)) = 0 := by
    have := hmono (clearTrace o).1
    have h0 := clearTrace_count_sleep o
    omega
  unfold loopTrace
  cases c with
  | false =>
    simp only [Bool.false_eq_true, if_false]
    rw [submitLoop_count_sleep, submitLoop_count_sleep_poll]
  | true =>
    simp only [if_true]
    by_cases hc : (clearTrace o).2 = true
    · simp only [hc, if_true, List.countP_append]
      rw [submitLoop_count_sleep, submitLoop_count_sleep_poll,
        clearTrace_count_sleep, hclear2]
    · simp [Bool.not_eq_true] at hc
      simp only [hc, Bool.false_eq_true, if_false]
      rw [clearTrace_count_sleep, hclear2]

theorem flagFalse_txLoop_none (env : String → Option String)
    (txO stateO : SignerOracle) (txOut stateOut : List Bool)
    (hne : getEnvVal env "RUN_TX_BATCH_SUBMITTER" ≠ "true") :
    txLoopOf (run env txO stateO txOut stateOut) = none := by
  cases h : firstMissing env with
  | some v => unfold run; rw [h]; rfl
  | none =>
    cases hs : (envTruthy (env "SEQUENCER_PRIVATE_KEY") ||
        envTruthy (env "MNEMONIC")) with
    | false =>
      rcases Bool.or_eq_false_iff.mp hs with ⟨h1, h2⟩
      rw [run_threw env txO stateO txOut stateOut h h1 h2]
      rfl
    | true =>
      rw [run_launched env txO stateO txOut stateOut h hs]
      have hb : (getEnvVal env "RUN_TX_BATCH_SUBMITTER" == "true") = false := by
        simp [hne]
      simp [txLoopOf, hb]

theorem flagFalse_stateLoop_none (env : String → Option String)
    (txO stateO : SignerOracle) (txOut stateOut : List Bool)
    (hne : getEnvVal env "RUN_STATE_BATCH_SUBMITTER" ≠ "true") :
    stateLoopOf (run env txO stateO txOut stateOut) = none := by
  cases h : firstMissing env with
  | some v => unfold run; rw [h]; rfl
  | none =>
    cases hs : (envTruthy (env "SEQUENCER_PRIVATE_KEY") ||
        envTruthy (env "MNEMONIC")) with
    | false =>
      rcases Bool.or_eq_false_iff.mp hs with ⟨h1, h2⟩
      rw [run_threw env txO stateO txOut stateOut h h1 h2]
      rfl
    | true =>
      rw [run_launched env txO stateO txOut stateOut h hs]
      have hb : (getEnvVal env "RUN_STATE_BATCH_SUBMITTER" == "true") = false := by
        simp [hne]
      simp [stateLoopOf, hb]

theorem clearFalse_no_recon (env : String → Option String)
    (txO stateO : SignerOracle) (txOut stateOut : List Bool)
    (hne : getEnvVal env "CLEAR_PENDING_TXS" ≠ "true") :
    ∀ t, (txLoopOf (run env txO stateO txOut stateOut) = some t ∨
          stateLoopOf (run env txO stateO txOut stateOut) = some t) →
      t.countP isReconEvent = 0 := by
  intro t ht
  have hcb : (getEnvVal env "CLEAR_PENDING_TXS" == "true") = false := by
    simp [hne]
  cases h : firstMissing env with
  | some v =>
    unfold run at ht; rw [h] at ht
    rcases ht with ht | ht <;> cases ht
  | none =>
    cases hs : (envTruthy (env "SEQUENCER_PRIVATE_KEY") ||
        envTruthy (env "MNEMONIC")) with
    | false =>
      rcases Bool.or_eq_false_iff.mp hs with ⟨h1, h2⟩
      rw [run_threw env txO stateO txOut stateOut h h1 h2] at ht
      rcases ht with ht | ht <;> cases ht
    | true =>
      rw [run_launched env txO stateO txOut stateOut h hs] at ht
      simp only [txLoopOf, stateLoopOf, hcb] at ht
      rcases ht with ht | ht
      · cases hf : (getEnvVal env "RUN_TX_BATCH_SUBMITTER" == "true") <;>
          rw [hf] at ht <;> simp at ht
        rw [← ht]
        simpa [loopTrace] using submitLoop_count_recon (pollIntervalOf env) txOut
      · cases hf : (getEnvVal env "RUN_STATE_BATCH_SUBMITTER" == "true") <;>
          rw [hf] at ht <;> simp at ht
        rw [← ht]
        simpa [loopTrace] using submitLoop_count_recon (pollIntervalOf env) stateOut

/-! ### Claim theorems -/

/-- Claim C2: when the two count reads succeed and every clearing step
succeeds, the clearing block broadcasts nothing if `pending <= latest`
(the nonce range is empty), and otherwise emits, after the single count
read, exactly the alternating blocks `sendSelfTransfer i, awaitReceipt i
60000` for each nonce `i` in `[latest, pending)` strictly in ascending
order (the blocks of `List.range' latest (pending - latest)`): each
broadcast is followed by the Confirmation-Waiter wait with the fixed
60-second (60000 ms) resubmission timeout before the next nonce's
broadcast, and the broadcast nonces are exactly that ascending range,
none skipped. -/
theorem recon_broadcast_order (o : SignerOracle)
    (hr : o.readsOk = true) (hok : ∀ j, o.clearRes j = .ok) :
    clearTrace o =
      (.readCounts o.pending o.latest ::
        clearBlocks (List.range' o.latest (o.pending - o.latest)), true) ∧
    (clearTrace o).1.filterMap sendNonce =
      List.range' o.latest (o.pending - o.latest) ∧
    (o.pending ≤ o.latest → (clearTrace o).1.filterMap sendNonce = []) ∧
    resubmitEvery60s = 60000 := by
  have hc := clearTrace_ok o hr hok
  refine ⟨hc, ?_, ?_, rfl⟩
  · rw [hc]
    simp [sendNonce, clearBlocks_sends]
  · intro hple
    rw [hc]
    have h0 : o.pending - o.latest = 0 := by omega
    simp [h0, sendNonce, clearBlocks]

/-- Witness for C2, on the spec's example window: pending 8, latest 5
gives broadcasts at nonces 5, 6, 7, each awaited with the 60000 ms
timeout before the next. -/
theorem recon_broadcast_order_witness :
    clearTrace oracleGap5to8 =
      ([.readCounts 8 5,
        .sendSelfTransfer 5, .awaitReceipt 5 60000,
        .sendSelfTransfer 6, .awaitReceipt 6 60000,
        .sendSelfTransfer 7, .awaitReceipt 7 60000], true) := by
  rw [(recon_broadcast_order oracleGap5to8 rfl (fun j => rfl)).1]
  rfl

/-- Claim C3: for every poll interval and every finite sequence of
iteration outcomes (success or thrown error), the submit loop's trace
contains no `process.exit`, exactly one `submitNextBatch` call per
iteration (failures do not stop further calls), exactly one sleep per
iteration, every sleep of the configured poll interval, and one
caught-and-logged error per failed iteration — so an arbitrary number of
consecutive failures leaves the loop calling and sleeping uniformly. -/
theorem submit_loop_failures_nonfatal (pollMs : Nat) (outs : List Bool) :
    (submitLoopTrace pollMs outs).countP isExit = 0 ∧
    (submitLoopTrace pollMs outs).countP isSubmitCall = outs.length ∧
    (submitLoopTrace pollMs outs).countP isSleepEvent = outs.length ∧
    (submitLoopTrace pollMs outs).countP
      (fun e => decide (e = .sleep pollMs)) = outs.length ∧
    (submitLoopTrace pollMs outs).countP isSubmitError =
      outs.countP (fun b => !b) :=
  ⟨submitLoop_count_exit pollMs outs, submitLoop_count_submitCall pollMs outs,
   submitLoop_count_sleep pollMs outs, submitLoop_count_sleep_poll pollMs outs,
   submitLoop_count_submitError pollMs outs⟩

/-- Claim C5: the state-batch loop's trace is a function of the
environment, its own oracle and its own outcomes only — changing the
transaction-batch Submitter's oracle and outcomes (in particular to an
always-failing one) leaves the state-batch loop's sequence of calls and
sleeps literally identical. -/
theorem state_loop_noninterference (env : String → Option String)
    (txO₁ txO₂ stateO : SignerOracle) (txOut₁ txOut₂ stateOut : List Bool) :
    stateLoopOf (run env txO₁ stateO txOut₁ stateOut) =
      stateLoopOf (run env txO₂ stateO txOut₂ stateOut) := by
  cases h : firstMissing env with
  | some v => unfold run; rw [h]
  | none =>
    unfold run
    rw [h]
    cases hs : (envTruthy (env "SEQUENCER_PRIVATE_KEY") ||
        envTruthy (env "MNEMONIC")) <;> simp [hs, stateLoopOf]

/-- Claim C6: starting from a chain state with `pending > latest`, if the
clearing block completes without error (all broadcast-and-await pairs
succeed, with the Confirmation Waiter's guarantee modelled by
`applyEvent`), the chain state after its trace has equal pending and
latest counts, both equal to the original pending count. -/
theorem recon_closes_gap (o : SignerOracle) (s : ChainState)
    (hr : o.readsOk = true) (hok : ∀ j, o.clearRes j = .ok)
    (hl : o.latest = s.latestCount) (hp : o.pending = s.pendingCount)
    (hgap : s.latestCount < s.pendingCount) :
    (runEvents s (clearTrace o).1).latestCount =
      (runEvents s (clearTrace o).1).pendingCount ∧
    (runEvents s (clearTrace o).1).pendingCount = s.pendingCount := by
  rw [clearTrace_ok o hr hok]
  obtain ⟨g, hg⟩ : ∃ g, o.pending - o.latest = g + 1 :=
    ⟨o.pending - o.latest - 1, by omega⟩
  have hstep : runEvents s (Event.readCounts o.pending o.latest ::
      clearBlocks (List.range' o.latest (o.pending - o.latest))) =
      runEvents s (clearBlocks (List.range' o.latest (o.pending - o.latest))) := by
    rfl
  rw [hstep, hg]
  rw [runEvents_clearBlocks g o.latest s (by omega)]
  constructor
  · simp
    omega
  · rfl

/-- Witness for C6, on the spec's example: window latest 5, pending 8;
after the clearing trace both counts are 8. -/
theorem recon_closes_gap_witness :
    (5 : Nat) < 8 ∧
    (runEvents ⟨5, 8⟩ (clearTrace oracleGap5to8).1).latestCount =
      (runEvents ⟨5, 8⟩ (clearTrace oracleGap5to8).1).pendingCount :=
  ⟨by decide,
   (recon_closes_gap oracleGap5to8 ⟨5, 8⟩ rfl (fun j => rfl) rfl rfl
     (by decide)).1⟩

/-- Counterexample to claim C1 as stated.  The clearing block is inside
`loop` (source lines 166-193), and `run` invokes `loop` once per enabled
role (lines 210-215); it is not hoisted before the loop launches.  With
the clear-pending flag true and both role flags true, the reconciliation
body executes once per role: the concrete run below performs the
pending/latest count read twice (and broadcasts the nonce-0 self-transfer
twice), refuting "the reconciliation body executes at most one time
regardless of how many roles are enabled". -/
theorem recon_not_once_cex :
    txLoopOf (run baseEnv oracleGapOne oracleGapOne [] []) =
      some [Event.readCounts 1 0, Event.sendSelfTransfer 0,
        Event.awaitReceipt 0 60000] ∧
    stateLoopOf (run baseEnv oracleGapOne oracleGapOne [] []) =
      some [Event.readCounts 1 0, Event.sendSelfTransfer 0,
        Event.awaitReceipt 0 60000] ∧
    ¬ (countReads [Event.readCounts 1 0, Event.sendSelfTransfer 0,
          Event.awaitReceipt 0 60000] +
        countReads [Event.readCounts 1 0, Event.sendSelfTransfer 0,
          Event.awaitReceipt 0 60000] ≤ 1) :=
  ⟨rfl, rfl, by decide⟩

/-- Claim C1 (amended): with the clear-pending flag true, the
reconciliation body executes exactly once per enabled role's `loop`
invocation (so up to twice, not at most once per process), and within
each invoked loop the reconciliation phase completes before any of that
loop's `submitNextBatch` calls — the trace splits into a reconciliation
prefix with no submit calls followed by a submit phase with no
reconciliation events.  (Ordering across the two loops is not
guaranteed; see the counterexample.) -/
theorem recon_once_per_enabled_role (env : String → Option String)
    (txO stateO : SignerOracle) (txOut stateOut : List Bool)
    (hval : firstMissing env = none)
    (hsig : (envTruthy (env "SEQUENCER_PRIVATE_KEY") ||
      envTruthy (env "MNEMONIC")) = true)
    (hclear : getEnvVal env "CLEAR_PENDING_TXS" = "true")
    (htx : txO.readsOk = true) (hst : stateO.readsOk = true) :
    (∀ t, txLoopOf (run env txO stateO txOut stateOut) = some t →
      countReads t = 1 ∧ ReconFirst t) ∧
    (∀ t, stateLoopOf (run env txO stateO txOut stateOut) = some t →
      countReads t = 1 ∧ ReconFirst t) := by
  have hcb : (getEnvVal env "CLEAR_PENDING_TXS" == "true") = true := by
    simp [hclear]
  rw [run_launched env txO stateO txOut stateOut hval hsig, hcb]
  constructor
  · intro t ht
    simp only [txLoopOf] at ht
    cases hf : (getEnvVal env "RUN_TX_BATCH_SUBMITTER" == "true") <;>
      rw [hf] at ht <;> simp at ht
    rw [← ht]
    exact ⟨loopTrace_count_reads txO (pollIntervalOf env) txOut htx,
      loopTrace_reconFirst txO (pollIntervalOf env) txOut⟩
  · intro t ht
    simp only [stateLoopOf] at ht
    cases hf : (getEnvVal env "RUN_STATE_BATCH_SUBMITTER" == "true") <;>
      rw [hf] at ht <;> simp at ht
    rw [← ht]
    exact ⟨loopTrace_count_reads stateO (pollIntervalOf env) stateOut hst,
      loopTrace_reconFirst stateO (pollIntervalOf env) stateOut⟩

/-- Witness for the amended C1, on the enabled tx-batch loop of a
concrete run. -/
theorem recon_once_per_enabled_role_witness :
    countReads [Event.readCounts 1 0, Event.sendSelfTransfer 0,
      Event.awaitReceipt 0 60000] = 1 ∧
    ReconFirst [Event.readCounts 1 0, Event.sendSelfTransfer 0,
      Event.awaitReceipt 0 60000] :=
  (recon_once_per_enabled_role baseEnv oracleGapOne oracleGapOne [] []
    rfl rfl rfl rfl rfl).1 _ rfl

/-- Counterexample to claim C4 as stated.  The two `loop` invocations are
fire-and-forget and each runs its own clearing block, so the runtime can
interleave one loop's submit phase before the other loop's clearing
failure.  In the concrete run below (both roles enabled, clear-pending
true), the tx-batch loop has no nonce gap and proceeds to a
`submitNextBatch` call, while the state-batch loop's count reads throw,
calling `process.exit(1)`: the exhibited schedule contains a
`submitNextBatch` call before the exit, refuting "no call to
submitNextBatch is ever started". -/
theorem recon_failure_cex :
    txLoopOf (run baseEnv oracleNoGap oracleReadsFail [true] []) =
      some [Event.readCounts 0 0, Event.submitCall, Event.sleep 15000] ∧
    stateLoopOf (run baseEnv oracleNoGap oracleReadsFail [true] []) =
      some [Event.exitProcess 1] ∧
    Sched [Event.readCounts 0 0, Event.submitCall, Event.sleep 15000]
      [Event.exitProcess 1]
      [Event.readCounts 0 0, Event.submitCall, Event.exitProcess 1] ∧
    [Event.readCounts 0 0, Event.submitCall,
      Event.exitProcess 1].countP isSubmitCall = 1 :=
  ⟨rfl, rfl, Sched.left (Sched.left (Sched.right Sched.stop)), by decide⟩

/-- Claim C4 (amended): on any clearing failure, of either role's loop,
the process calls `process.exit(1)` (the run's exit status is 1,
non-zero), and the loop whose clearing failed never reaches a
`submitNextBatch` call; moreover when the other role is disabled, no
schedule of the process contains any `submitNextBatch` call at all.
(With both roles enabled the other loop may already have called
`submitNextBatch`; see the counterexample.) -/
theorem recon_failure_halts_own_loop (env : String → Option String)
    (txO stateO : SignerOracle) (txOut stateOut : List Bool)
    (hval : firstMissing env = none)
    (hsig : (envTruthy (env "SEQUENCER_PRIVATE_KEY") ||
      envTruthy (env "MNEMONIC")) = true)
    (hclear : getEnvVal env "CLEAR_PENDING_TXS" = "true") :
    ((clearTrace txO).2 = false →
      (∀ t, txLoopOf (run env txO stateO txOut stateOut) = some t →
        t.countP isExit = 1 ∧ t.countP isSubmitCall = 0 ∧
        exitStatus (run env txO stateO txOut stateOut) = some 1) ∧
      (∀ t L, getEnvVal env "RUN_STATE_BATCH_SUBMITTER" ≠ "true" →
        txLoopOf (run env txO stateO txOut stateOut) = some t →
        Sched t [] L → L.countP isSubmitCall = 0)) ∧
    ((clearTrace stateO).2 = false →
      (∀ t, stateLoopOf (run env txO stateO txOut stateOut) = some t →
        t.countP isExit = 1 ∧ t.countP isSubmitCall = 0 ∧
        exitStatus (run env txO stateO txOut stateOut) = some 1) ∧
      (∀ t L, getEnvVal env "RUN_TX_BATCH_SUBMITTER" ≠ "true" →
        stateLoopOf (run env txO stateO txOut stateOut) = some t →
        Sched [] t L → L.countP isSubmitCall = 0)) := by
  have hcb : (getEnvVal env "CLEAR_PENDING_TXS" == "true") = true := by
    simp [hclear]
  rw [run_launched env txO stateO txOut stateOut hval hsig, hcb]
  constructor
  · intro hfail
    have htr : loopTrace true txO (pollIntervalOf env) txOut =
        (clearTrace txO).1 := by
      unfold loopTrace
      simp [hfail]
    have hexit : (clearTrace txO).1.countP isExit = 1 := by
      have h := clearTrace_exit_count txO
      rw [hfail] at h
      simpa using h
    have hsub : (clearTrace txO).1.countP isSubmitCall = 0 :=
      List.countP_eq_zero.mpr (fun e he => by
        simp [clearTrace_no_submit txO e he])
    constructor
    · intro t ht
      simp only [txLoopOf] at ht
      cases hf : (getEnvVal env "RUN_TX_BATCH_SUBMITTER" == "true") <;>
        rw [hf] at ht <;> simp at ht
      rw [← ht, htr]
      refine ⟨hexit, hsub, ?_⟩
      simp [exitStatus, hexit]
    · intro t L _ ht hsched
      simp only [txLoopOf] at ht
      cases hf : (getEnvVal env "RUN_TX_BATCH_SUBMITTER" == "true") <;>
        rw [hf] at ht <;> simp at ht
      have hb := sched_countP isSubmitCall hsched
      rw [← ht, htr, hsub] at hb
      simp only [List.countP_nil] at hb
      omega
  · intro hfail
    have htr : loopTrace true stateO (pollIntervalOf env) stateOut =
        (clearTrace stateO).1 := by
      unfold loopTrace
      simp [hfail]
    have hexit : (clearTrace stateO).1.countP isExit = 1 := by
      have h := clearTrace_exit_count stateO
      rw [hfail] at h
      simpa using h
    have hsub : (clearTrace stateO).1.countP isSubmitCall = 0 :=
      List.countP_eq_zero.mpr (fun e he => by
        simp [clearTrace_no_submit stateO e he])
    constructor
    · intro t ht
      simp only [stateLoopOf] at ht
      cases hf : (getEnvVal env "RUN_STATE_BATCH_SUBMITTER" == "true") <;>
        rw [hf] at ht <;> simp at ht
      rw [← ht, htr]
      refine ⟨hexit, hsub, ?_⟩
      simp [exitStatus, hexit]
    · intro t L _ ht hsched
      simp only [stateLoopOf] at ht
      cases hf : (getEnvVal env "RUN_STATE_BATCH_SUBMITTER" == "true") <;>
        rw [hf] at ht <;> simp at ht
      have hb := sched_countP isSubmitCall hsched
      rw [← ht, htr, hsub] at hb
      simp only [List.countP_nil] at hb
      omega

/-- The base environment with the tx-batch role disabled. -/
def envTxOff : String → Option String :=
  envWith [("RUN_TX_BATCH_SUBMITTER", "false")]

/-- The base environment with the state-batch role disabled. -/
def envStateOff : String → Option String :=
  envWith [("RUN_STATE_BATCH_SUBMITTER", "false")]

/-- Witness for the amended C4, exercising both roles: a run with only
the tx-batch role enabled whose clearing reads fail, and a run with only
the state-batch role enabled whose clearing reads fail.  In each, the
failing loop's trace is exactly the exit, the process exit status is 1,
and the single-thread schedule contains no submit call. -/
theorem recon_failure_halts_own_loop_witness :
    ([Event.exitProcess 1].countP isExit = 1 ∧
     [Event.exitProcess 1].countP isSubmitCall = 0 ∧
     exitStatus (run envStateOff oracleReadsFail oracleNoGap [] []) =
       some 1) ∧
    [Event.exitProcess 1].countP isSubmitCall = 0 ∧
    ([Event.exitProcess 1].countP isExit = 1 ∧
     [Event.exitProcess 1].countP isSubmitCall = 0 ∧
     exitStatus (run envTxOff oracleNoGap oracleReadsFail [] []) = some 1) ∧
    [Event.exitProcess 1].countP isSubmitCall = 0 :=
  ⟨((recon_failure_halts_own_loop envStateOff oracleReadsFail oracleNoGap
      [] [] rfl rfl rfl).1 rfl).1 _ rfl,
   ((recon_failure_halts_own_loop envStateOff oracleReadsFail oracleNoGap
      [] [] rfl rfl rfl).1 rfl).2 _ _ (by decide) rfl (Sched.left Sched.stop),
   ((recon_failure_halts_own_loop envTxOff oracleNoGap oracleReadsFail
      [] [] rfl rfl rfl).2 rfl).1 _ rfl,
   ((recon_failure_halts_own_loop envTxOff oracleNoGap oracleReadsFail
      [] [] rfl rfl rfl).2 rfl).2 _ _ (by decide) rfl (Sched.right Sched.stop)⟩

/-- Claim C7: a role whose enable flag is not the exact string true never
has its loop invoked (its trace slot is `none`, so its Submitter's
`submitNextBatch` is never called), regardless of the other flag or any
other configuration value. -/
theorem disabled_role_never_scheduled (env : String → Option String)
    (txO stateO : SignerOracle) (txOut stateOut : List Bool) :
    (getEnvVal env "RUN_TX_BATCH_SUBMITTER" ≠ "true" →
      txLoopOf (run env txO stateO txOut stateOut) = none) ∧
    (getEnvVal env "RUN_STATE_BATCH_SUBMITTER" ≠ "true" →
      stateLoopOf (run env txO stateO txOut stateOut) = none) :=
  ⟨fun h => flagFalse_txLoop_none env txO stateO txOut stateOut h,
   fun h => flagFalse_stateLoop_none env txO stateO txOut stateOut h⟩

/-- The base environment with both role flags set to false. -/
def envBothOff : String → Option String :=
  envWith [("RUN_TX_BATCH_SUBMITTER", "false"),
           ("RUN_STATE_BATCH_SUBMITTER", "false")]

/-- Witness for C7: with both flags false, neither loop is invoked. -/
theorem disabled_role_never_scheduled_witness :
    txLoopOf (run envBothOff oracleNoGap oracleNoGap [] []) = none ∧
    stateLoopOf (run envBothOff oracleNoGap oracleNoGap [] []) = none :=
  ⟨(disabled_role_never_scheduled envBothOff oracleNoGap oracleNoGap [] []).1
     (by decide),
   (disabled_role_never_scheduled envBothOff oracleNoGap oracleNoGap [] []).2
     (by decide)⟩

/-- Claim C8: a missing (unset or empty) required configuration value
makes `run` exit with status 1 before any Submitter is constructed or
loop started (the result carries no submitter parameters and no loop
trace); when neither a private key nor a mnemonic is supplied, signer
construction throws and the process terminates with non-zero status (per
the spec's fatal-startup taxonomy, the entry point converting the escaped
error to a non-zero exit is modelled in `exitStatus`), again with no
Submitter constructed and no loop started; and for a launched run with
the clear-pending flag off, the exit status is `none` for every sequence
of submit-loop outcomes — loop errors never affect the exit code. -/
theorem fatal_startup_errors (env : String → Option String)
    (txO stateO : SignerOracle) (txOut stateOut : List Bool) :
    ((∃ name, name ∈ requiredEnvVarNames ∧ envTruthy (env name) = false) →
      run env txO stateO txOut stateOut = .exited 1 ∧
      txLoopOf (run env txO stateO txOut stateOut) = none ∧
      stateLoopOf (run env txO stateO txOut stateOut) = none) ∧
    (firstMissing env = none →
      envTruthy (env "SEQUENCER_PRIVATE_KEY") = false →
      envTruthy (env "MNEMONIC") = false →
      run env txO stateO txOut stateOut = .threw ∧
      exitStatus (run env txO stateO txOut stateOut) = some 1 ∧
      txLoopOf (run env txO stateO txOut stateOut) = none ∧
      stateLoopOf (run env txO stateO txOut stateOut) = none) ∧
    (firstMissing env = none →
      (envTruthy (env "SEQUENCER_PRIVATE_KEY") ||
        envTruthy (env "MNEMONIC")) = true →
      getEnvVal env "CLEAR_PENDING_TXS" ≠ "true" →
      exitStatus (run env txO stateO txOut stateOut) = none) := by
  refine ⟨?_, ?_, ?_⟩
  · rintro ⟨name, hn, hm⟩
    have h := run_missing env txO stateO txOut stateOut name hn hm
    exact ⟨h, by rw [h]; rfl, by rw [h]; rfl⟩
  · intro hval h1 h2
    have h := run_threw env txO stateO txOut stateOut hval h1 h2
    exact ⟨h, by rw [h]; rfl, by rw [h]; rfl, by rw [h]; rfl⟩
  · intro hval hsig hne
    have hcb : (getEnvVal env "CLEAR_PENDING_TXS" == "true") = false := by
      simp [hne]
    rw [run_launched env txO stateO txOut stateOut hval hsig, hcb]
    cases hf1 : (getEnvVal env "RUN_TX_BATCH_SUBMITTER" == "true") <;>
    cases hf2 : (getEnvVal env "RUN_STATE_BATCH_SUBMITTER" == "true") <;>
      simp [exitStatus, loopTrace, submitLoop_count_exit]

/-- The base environment with the poll-interval variable unset. -/
def envNoPoll : String → Option String := envDrop "POLL_INTERVAL"

/-- The base environment without a sequencer key (and no mnemonic). -/
def envNoSigner : String → Option String := envDrop "SEQUENCER_PRIVATE_KEY"

/-- The base environment with the clear-pending flag set to false. -/
def envClearOff : String → Option String :=
  envWith [("CLEAR_PENDING_TXS", "false")]

/-- Witness for C8 on three concrete environments: a missing required
variable exits 1; a missing signer key throws; and a launched run whose
submit iterations all fail has no exit status. -/
theorem fatal_startup_errors_witness :
    run envNoPoll oracleNoGap oracleNoGap [] [] = .exited 1 ∧
    run envNoSigner oracleNoGap oracleNoGap [] [] = .threw ∧
    exitStatus (run envClearOff oracleNoGap oracleNoGap [false, false]
      [false]) = none :=
  ⟨((fatal_startup_errors envNoPoll oracleNoGap oracleNoGap [] []).1
      ⟨"POLL_INTERVAL", by decide, rfl⟩).1,
   ((fatal_startup_errors envNoSigner oracleNoGap oracleNoGap [] []).2.1
      rfl rfl rfl).1,
   (fatal_startup_errors envClearOff oracleNoGap oracleNoGap [false, false]
      [false]).2.2 rfl rfl (by decide)⟩

/-- Claim C9: each boolean flag is recognized as enabled only by strict
equality with the exact string true — any other non-empty value disables
the corresponding behaviour (loop not launched, clearing block skipped:
the launched traces contain no reconciliation event) — while an unset or
empty flag fails validation and exits the process with status 1. -/
theorem flags_strict_true_equality (env : String → Option String)
    (txO stateO : SignerOracle) (txOut stateOut : List Bool) :
    (∀ v, env "RUN_TX_BATCH_SUBMITTER" = some v → v ≠ "true" →
      txLoopOf (run env txO stateO txOut stateOut) = none) ∧
    (∀ v, env "RUN_STATE_BATCH_SUBMITTER" = some v → v ≠ "true" →
      stateLoopOf (run env txO stateO txOut stateOut) = none) ∧
    (∀ v, env "CLEAR_PENDING_TXS" = some v → v ≠ "true" →
      ∀ t, (txLoopOf (run env txO stateO txOut stateOut) = some t ∨
            stateLoopOf (run env txO stateO txOut stateOut) = some t) →
        t.countP isReconEvent = 0) ∧
    ((envTruthy (env "RUN_TX_BATCH_SUBMITTER") = false ∨
      envTruthy (env "RUN_STATE_BATCH_SUBMITTER") = false ∨
      envTruthy (env "CLEAR_PENDING_TXS") = false) →
      run env txO stateO txOut stateOut = .exited 1) := by
  refine ⟨?_, ?_, ?_, ?_⟩
  · intro v hv hne
    refine flagFalse_txLoop_none env txO stateO txOut stateOut ?_
    simpa [getEnvVal, hv] using hne
  · intro v hv hne
    refine flagFalse_stateLoop_none env txO stateO txOut stateOut ?_
    simpa [getEnvVal, hv] using hne
  · intro v hv hne
    refine clearFalse_no_recon env txO stateO txOut stateOut ?_
    simpa [getEnvVal, hv] using hne
  · rintro (hm | hm | hm)
    · exact run_missing env txO stateO txOut stateOut
        "RUN_TX_BATCH_SUBMITTER" (by decide) hm
    · exact run_missing env txO stateO txOut stateOut
        "RUN_STATE_BATCH_SUBMITTER" (by decide) hm
    · exact run_missing env txO stateO txOut stateOut
        "CLEAR_PENDING_TXS" (by decide) hm

/-- The base environment with the role flags set to TRUE and 1 (truthy
but not the exact string true). -/
def envCaps : String → Option String :=
  envWith [("RUN_TX_BATCH_SUBMITTER", "TRUE"),
           ("RUN_STATE_BATCH_SUBMITTER", "1")]

/-- The base environment with the clear-pending flag set to yes. -/
def envClearYes : String → Option String :=
  envWith [("CLEAR_PENDING_TXS", "yes")]

/-- The base environment with the clear-pending flag set to the empty
string. -/
def envClearEmpty : String → Option String :=
  envWith [("CLEAR_PENDING_TXS", "")]

/-- Witness for C9: TRUE and 1 do not enable the loops; yes skips the
clearing block (the launched trace has no reconciliation event); an
empty flag value exits with status 1. -/
theorem flags_strict_true_equality_witness :
    txLoopOf (run envCaps oracleNoGap oracleNoGap [] []) = none ∧
    stateLoopOf (run envCaps oracleNoGap oracleNoGap [] []) = none ∧
    [Event.submitCall, Event.submitError,
      Event.sleep 15000].countP isReconEvent = 0 ∧
    run envClearEmpty oracleNoGap oracleNoGap [] [] = .exited 1 :=
  ⟨(flags_strict_true_equality envCaps oracleNoGap oracleNoGap [] []).1
     "TRUE" rfl (by decide),
   (flags_strict_true_equality envCaps oracleNoGap oracleNoGap [] []).2.1
     "1" rfl (by decide),
   (flags_strict_true_equality envClearYes oracleNoGap oracleNoGap
     [false] []).2.2.1 "yes" rfl (by decide)
     [Event.submitCall, Event.submitError, Event.sleep 15000] (Or.inl rfl),
   (flags_strict_true_equality envClearEmpty oracleNoGap
     oracleNoGap [] []).2.2.2 (Or.inr (Or.inr rfl))⟩

/-- Every sleep event of an invoked loop's trace has exactly the raw
poll-interval duration: the two counts agree, so no sleep has any other
duration. -/
theorem anyLoop_sleep_counts (env : String → Option String)
    (txO stateO : SignerOracle) (txOut stateOut : List Bool) :
    ∀ t, (txLoopOf (run env txO stateO txOut stateOut) = some t ∨
          stateLoopOf (run env txO stateO txOut stateOut) = some t) →
      t.countP isSleepEvent =
        t.countP (fun e => decide (e = .sleep (pollIntervalOf env))) := by
  intro t ht
  cases h : firstMissing env with
  | some v =>
    unfold run at ht; rw [h] at ht
    rcases ht with ht | ht <;> cases ht
  | none =>
    cases hs : (envTruthy (env "SEQUENCER_PRIVATE_KEY") ||
        envTruthy (env "MNEMONIC")) with
    | false =>
      rcases Bool.or_eq_false_iff.mp hs with ⟨h1, h2⟩
      rw [run_threw env txO stateO txOut stateOut h h1 h2] at ht
      rcases ht with ht | ht <;> cases ht
    | true =>
      rw [run_launched env txO stateO txOut stateOut h hs] at ht
      simp only [txLoopOf, stateLoopOf] at ht
      rcases ht with ht | ht
      · cases hf : (getEnvVal env "RUN_TX_BATCH_SUBMITTER" == "true") <;>
          rw [hf] at ht <;> simp at ht
        rw [← ht]
        exact loopTrace_sleep_counts _ txO (pollIntervalOf env) txOut
      · cases hf : (getEnvVal env "RUN_STATE_BATCH_SUBMITTER" == "true") <;>
          rw [hf] at ht <;> simp at ht
        rw [← ht]
        exact loopTrace_sleep_counts _ stateO (pollIntervalOf env) stateOut

/-- Claim C10: the per-iteration sleep duration is the raw parsed
POLL_INTERVAL value in milliseconds (no unit conversion: every sleep
event of every invoked loop equals `sleep (parseIntBase10
POLL_INTERVAL)`), whereas the submitter constructor arguments derived
from RESUBMISSION_TIMEOUT and MAX_BATCH_SUBMISSION_TIME are the parsed
values multiplied by 1000. -/
theorem poll_interval_no_unit_conversion (env : String → Option String)
    (txO stateO : SignerOracle) (txOut stateOut : List Bool) :
    (builtOf env).resubmissionTimeoutMs =
      parseIntBase10 (getEnvVal env "RESUBMISSION_TIMEOUT") * 1000 ∧
    (builtOf env).maxBatchSubmissionTimeMs =
      parseIntBase10 (getEnvVal env "MAX_BATCH_SUBMISSION_TIME") * 1000 ∧
    pollIntervalOf env = parseIntBase10 (getEnvVal env "POLL_INTERVAL") ∧
    (∀ t, txLoopOf (run env txO stateO txOut stateOut) = some t →
      t.countP isSleepEvent =
        t.countP (fun e => decide (e = .sleep (pollIntervalOf env)))) ∧
    (∀ t, stateLoopOf (run env txO stateO txOut stateOut) = some t →
      t.countP isSleepEvent =
        t.countP (fun e => decide (e = .sleep (pollIntervalOf env)))) :=
  ⟨rfl, rfl, rfl,
   fun t ht => anyLoop_sleep_counts env txO stateO txOut stateOut t (Or.inl ht),
   fun t ht => anyLoop_sleep_counts env txO stateO txOut stateOut t (Or.inr ht)⟩

/-- Witness for C10 on the base environment with clearing off:
RESUBMISSION_TIMEOUT is 600 and yields 600000 ms, POLL_INTERVAL is 15000
and is used as 15000 ms, and the concrete launched trace's only sleep is
`sleep 15000`. -/
theorem poll_interval_no_unit_conversion_witness :
    (builtOf envClearOff).resubmissionTimeoutMs = 600000 ∧
    (builtOf envClearOff).maxBatchSubmissionTimeMs = 600000 ∧
    pollIntervalOf envClearOff = 15000 ∧
    [Event.submitCall, Event.submitError,
      Event.sleep 15000].countP isSleepEvent =
    [Event.submitCall, Event.submitError,
      Event.sleep 15000].countP
        (fun e => decide (e = .sleep (pollIntervalOf envClearOff))) :=
  ⟨((poll_interval_no_unit_conversion envClearOff oracleNoGap oracleNoGap
      [false] []).1).trans (by decide),
   ((poll_interval_no_unit_conversion envClearOff oracleNoGap oracleNoGap
      [false] []).2.1).trans (by decide),
   ((poll_interval_no_unit_conversion envClearOff oracleNoGap oracleNoGap
      [false] []).2.2.1).trans (by decide),
   (poll_interval_no_unit_conversion envClearOff oracleNoGap oracleNoGap
      [false] []).2.2.2.1 _ rfl⟩

end BatchSubmitterRun
